import Mathlib

/-
Verification of the Scrapling static-engine excerpt: a shallow embedding of
`scrapling/fetchers.py`, `scrapling/engines/static.py` and
`scrapling/engines/toolbelt/custom.py` as Lean definitions, followed by
theorems settling the specification claims about them.
-/

set_option autoImplicit false

namespace Scrapling

/-- Kinds of Python exceptions that appear in the embedded code paths. -/
inductive PyErr where
  | valueError
  | lookupError
  | unicodeEncodeError
  | attributeError
  | typeError
  | otherError
deriving DecidableEq, Repr

/-- Python values carried in configuration / adaptor-argument bags. -/
inductive PyVal where
  | vNone
  | vBool (b : Bool)
  | vInt (n : Int)
  | vStr (s : String)
  | vObj (tag : String)
deriving DecidableEq, Repr

/-- Python truthiness for the embedded values (`None`, `False`, `0` and the
empty string are falsy; an arbitrary object is truthy). -/
def PyVal.truthy : PyVal → Bool
  | .vNone => false
  | .vBool b => b
  | .vInt n => n ≠ 0
  | .vStr s => !s.isEmpty
  | .vObj _ => true

/-- Whether a value is a Python `str` (used by `type(x) is not str` checks). -/
def PyVal.isStr : PyVal → Bool
  | .vStr _ => true
  | _ => false

/-- A Python `dict` with string keys, embedded as an association list whose
keys are pairwise distinct in any state reachable from actual `dict` values;
lookups return the first matching entry. -/
abbrev PyDict (α : Type) := List (String × α)

namespace PyDict

variable {α : Type}

/-- `d[k]` / `d.get(k)` as an option: the first entry with key `k`. -/
def lookup (d : PyDict α) (k : String) : Option α :=
  (d.find? (fun p => p.1 = k)).map (fun p => p.2)

/-- `k in d`. -/
def hasKey (d : PyDict α) (k : String) : Bool :=
  d.any (fun p => p.1 = k)

/-- `d[k] = v`: replace the value of an existing key in place, otherwise
append the new entry (Python dicts preserve insertion order). -/
def set : PyDict α → String → α → PyDict α
  | [], k, v => [(k, v)]
  | p :: tl, k, v => if p.1 = k then (k, v) :: tl else p :: set tl k v

/-- `d.update(e)`: apply `set` for every entry of `e` in order. -/
def updateAll (d e : PyDict α) : PyDict α :=
  e.foldl (fun acc p => acc.set p.1 p.2) d

/-- `d.pop(k, default)` / deleting a key: all entries with key `k` removed. -/
def eraseKey (d : PyDict α) (k : String) : PyDict α :=
  d.filter (fun p => p.1 ≠ k)

end PyDict

/-- Python `str.lower`, restricted to the ASCII case mapping (header names and
configuration keywords handled by this code are ASCII). -/
def pyLower (s : String) : String := String.mk (s.data.map Char.toLower)

/-- Python `str.strip(chars)`: remove every leading and trailing character
that belongs to `cs`. -/
def pyStrip (cs : List Char) (s : String) : String :=
  String.mk (((s.data.dropWhile (fun c => cs.contains c)).reverse.dropWhile
    (fun c => cs.contains c)).reverse)

/-- A header value: a Python string, or `None` (`dict.get` can produce `None`). -/
abbrev HVal := Option String

/-- Outcome of the header-merge step: the returned mapping, together with the
state of the caller's mapping after the call (when the caller passed one). -/
structure HeadersJobOut where
  result : PyDict HVal
  callerAfter : Option (PyDict HVal)
deriving DecidableEq, Repr

/-- Embedding of `StaticEngine._headers_job` (engines/static.py, lines 37-59).

`gen` stands for the result of the external collaborator call
`generate_headers(browser_mode=False)` and `referer` for
`generate_convincing_referer(self.url)`.  Python's `headers = headers or {}`
keeps the caller's dict object exactly when the caller passed a non-empty
dict, so the in-place `headers.update(...)` / item assignments are visible
through the caller's reference; `callerAfter` records the caller's mapping
after the call. -/
def headers_job (gen : PyDict HVal) (referer : String) (stealth : Bool)
    (callerHeaders : Option (PyDict HVal)) : HeadersJobOut :=
  let headers : PyDict HVal := match callerHeaders with
    | some h => if h.isEmpty then [] else h
    | none => []
  let headersKeys := headers.map (fun p => pyLower p.1)
  let final :=
    if stealth then
      let extra := gen.filter (fun p => !headersKeys.contains (pyLower p.1))
      let h1 := headers.updateAll extra
      if headersKeys.contains "referer" then h1
      else h1.set "referer" (some referer)
    else
      if headersKeys.contains "user-agent" then headers
      else headers.set "User-Agent" ((gen.lookup "User-Agent").join)
  { result := final
    callerAfter := callerHeaders.map (fun h => if h.isEmpty then h else final) }

/- ## Encoding resolver (`ResponseEncoding`, toolbelt/custom.py lines 14-81) -/

/-- `ResponseEncoding.__DEFAULT_ENCODING`. -/
def DEFAULT_ENCODING : String := "utf-8"

/-- `ResponseEncoding.__ISO_8859_1_CONTENT_TYPES`. -/
def ISO_8859_1_CONTENT_TYPES : List String :=
  ["text/plain", "text/html", "text/css", "text/javascript"]

/-- The character set used by `params["charset"].strip("'\x22")`: the single
and the double quote. -/
def quoteChars : List Char := [Char.ofNat 39, Char.ofNat 34]

/-- Python's whitespace set for `str.strip()` (the ASCII part). -/
def pyWhitespace : List Char :=
  [Char.ofNat 32, Char.ofNat 9, Char.ofNat 10, Char.ofNat 13, Char.ofNat 11, Char.ofNat 12]

/-- The exception types caught by `get_value`'s
`except (ValueError, LookupError, UnicodeEncodeError)` clause. -/
def caughtEncodingErrs : List PyErr :=
  [.valueError, .lookupError, .unicodeEncodeError]

/-- Embedding of `ResponseEncoding.__parse_content_type` (custom.py 18-38).
The body delegates header parsing wholly to the external
`email.message.Message`, abstracted here as the oracle `emailParse`; the one
line of local logic, `params.pop('content-type', None)`, is embedded as the
key erasure. -/
def parse_content_type (emailParse : String → Except PyErr (String × PyDict String))
    (headerValue : String) : Except PyErr (String × PyDict String) :=
  (emailParse headerValue).map (fun r => (r.1, r.2.eraseKey "content-type"))

/-- The `encoding` local of `get_value` after the explicit-charset and
media-type rules (custom.py 60-72). -/
def chosen_encoding (mt : String) (params : PyDict String) : Option String :=
  match params.lookup "charset" with
  | some c => some (pyStrip quoteChars c)
  | none =>
    if ISO_8859_1_CONTENT_TYPES.contains mt then some "ISO-8859-1"
    else if mt = "application/json" then some DEFAULT_ENCODING
    else none

/-- Embedding of `ResponseEncoding.get_value` (custom.py 40-81).
`encodeErr enc text` models `text.encode(enc)`: `none` when the encoding
exists and can encode `text`, otherwise the exception it raises.  The
`try`/`except` recovers exactly `ValueError`, `LookupError` and
`UnicodeEncodeError`; the `if encoding:` truthiness test makes an empty
charset fall through to the UTF-8 default without validation. -/
def get_value (emailParse : String → Except PyErr (String × PyDict String))
    (encodeErr : String → String → Option PyErr)
    (content_type : Option String) (text : String) : Except PyErr String :=
  match content_type with
  | none => .ok DEFAULT_ENCODING
  | some ct =>
    if ct.isEmpty then .ok DEFAULT_ENCODING
    else
      let body : Except PyErr String :=
        match parse_content_type emailParse ct with
        | .error e => .error e
        | .ok (mt, params) =>
          match chosen_encoding mt params with
          | some enc =>
            if enc.isEmpty then .ok DEFAULT_ENCODING
            else
              match encodeErr enc text with
              | some e => .error e
              | none => .ok enc
          | none => .ok DEFAULT_ENCODING
      match body with
      | .ok v => .ok v
      | .error e => if caughtEncodingErrs.contains e then .ok DEFAULT_ENCODING else .error e

/- ## Response wrapper (`Response`, toolbelt/custom.py lines 84-101) -/

/-- The Scrapling `Response` object: the transport fields set by
`Response.__init__` plus the `url`, `encoding` and remaining adaptor
arguments it forwards to the `Adaptor` base constructor. -/
inductive SResponse where
  | mk (url : String) (text : String) (body : String) (status : Int) (reason : String)
      (cookies : PyDict String) (headers : PyDict String) (request_headers : PyDict String)
      (encoding : String) (method : String) (history : List SResponse)
      (adaptorUrl : PyVal) (parserArgs : PyDict PyVal)
deriving Repr

def SResponse.history : SResponse → List SResponse
  | .mk _ _ _ _ _ _ _ _ _ _ h _ _ => h

def SResponse.adaptorUrl : SResponse → PyVal
  | .mk _ _ _ _ _ _ _ _ _ _ _ u _ => u

def SResponse.parserArgs : SResponse → PyDict PyVal
  | .mk _ _ _ _ _ _ _ _ _ _ _ _ a => a

def SResponse.encoding : SResponse → String
  | .mk _ _ _ _ _ _ _ _ e _ _ _ _ => e

/-- Embedding of `Response.__init__` (custom.py 87-101).
`adaptor_arguments.pop('automatch_domain', None)` removes the key from the
kwargs dict and yields its value (or `None`); `url=automatch_domain or url`
passes that value to the `Adaptor` base when it is truthy, the fetched URL
otherwise.  `encoding = ResponseEncoding.get_value(encoding, text)` never
raises for string inputs (claim C6), so extracting the `ok` value with a
UTF-8 fallback on the unreachable error branch is faithful. -/
def mkResponse (emailParse : String → Except PyErr (String × PyDict String))
    (encodeErr : String → String → Option PyErr)
    (url text body : String) (status : Int) (reason : String)
    (cookies headers request_headers : PyDict String)
    (encoding : String) (method : String)
    (history : Option (List SResponse)) (adaptor_arguments : PyDict PyVal) : SResponse :=
  let automatch_domain := (adaptor_arguments.lookup "automatch_domain").getD .vNone
  let forwarded := adaptor_arguments.eraseKey "automatch_domain"
  let hist := match history with
    | some l => if l.isEmpty then [] else l
    | none => []
  let enc := match get_value emailParse encodeErr (some encoding) text with
    | .ok e => e
    | .error _ => DEFAULT_ENCODING
  let adaptorUrl := if automatch_domain.truthy then automatch_domain else .vStr url
  .mk url text body status reason cookies headers request_headers enc method hist
    adaptorUrl forwarded

/- ## Static request engine (`StaticEngine`, engines/static.py) -/

/-- The transport-level response handed back by httpx, including the
redirect chain the transport followed (`history`, oldest hop first). -/
inductive HttpxResponse where
  | mk (url : String) (text : String) (content : String) (status_code : Int)
      (reason_phrase : String) (encoding : Option String)
      (cookies : PyDict String) (headers : PyDict String)
      (request_headers : PyDict String) (method : String)
      (history : List HttpxResponse)
deriving Repr

def HttpxResponse.history : HttpxResponse → List HttpxResponse
  | .mk _ _ _ _ _ _ _ _ _ _ h => h

/-- Embedding of `StaticEngine._prepare_response` (static.py 61-80): each
transport field is copied over, `response.encoding or 'utf-8'` resolves a
missing or empty transport encoding, and every redirect hop of
`response.history` is normalized recursively with the same
`adaptor_arguments`. -/
def prepare_response (emailParse : String → Except PyErr (String × PyDict String))
    (encodeErr : String → String → Option PyErr)
    (adaptor_arguments : PyDict PyVal) : HttpxResponse → SResponse
  | .mk url text content status reason enc cookies headers reqHeaders method history =>
    mkResponse emailParse encodeErr url text content status reason cookies headers reqHeaders
      (match enc with
       | some e => if e.isEmpty then "utf-8" else e
       | none => "utf-8")
      method
      (some (history.attach.map (fun x => prepare_response emailParse encodeErr
        adaptor_arguments x.1)))
      adaptor_arguments
decreasing_by
  have := List.sizeOf_lt_of_mem x.2
  simp only [HttpxResponse.mk.sizeOf_spec]
  omega

/-- The constructor state of `StaticEngine.__init__` (static.py 12-35) that
the request paths read. -/
structure StaticEngineState where
  url : String
  proxy : Option String
  stealth : Bool
  follow_redirects : Bool
  timeout : Option Int
  retries : Int
  adaptor_arguments : PyDict PyVal

/-- The parameters both request paths hand to the httpx client call. -/
structure RequestSent where
  method : String
  url : String
  headers : PyDict HVal
  follow_redirects : Bool
  timeout : Option Int
  proxy : Option String
  retries : Int
deriving Repr

/-- Embedding of `StaticEngine._make_request` (static.py 82-86): run the
header merge on `kwargs.pop('headers', {})`, issue the request through a
client scoped to this call (the transport is the oracle `transport`), and
normalize the transport result.  Returns the dispatched request alongside
the normalized response. -/
def make_request (emailParse : String → Except PyErr (String × PyDict String))
    (encodeErr : String → String → Option PyErr)
    (gen : PyDict HVal) (genReferer : String → String)
    (eng : StaticEngineState) (transport : RequestSent → HttpxResponse)
    (method : String) (headersArg : Option (PyDict HVal)) : RequestSent × SResponse :=
  let headers := (headers_job gen (genReferer eng.url) eng.stealth headersArg).result
  let req : RequestSent :=
    ⟨method, eng.url, headers, eng.follow_redirects, eng.timeout, eng.proxy, eng.retries⟩
  (req, prepare_response emailParse encodeErr eng.adaptor_arguments (transport req))

/-- Embedding of `StaticEngine._async_make_request` (static.py 88-92): the
same computation as `make_request`, with the `await`ed async client in
place of the synchronous one; the transport round trip is the same oracle. -/
def async_make_request (emailParse : String → Except PyErr (String × PyDict String))
    (encodeErr : String → String → Option PyErr)
    (gen : PyDict HVal) (genReferer : String → String)
    (eng : StaticEngineState) (transport : RequestSent → HttpxResponse)
    (method : String) (headersArg : Option (PyDict HVal)) : RequestSent × SResponse :=
  let headers := (headers_job gen (genReferer eng.url) eng.stealth headersArg).result
  let req : RequestSent :=
    ⟨method, eng.url, headers, eng.follow_redirects, eng.timeout, eng.proxy, eng.retries⟩
  (req, prepare_response emailParse encodeErr eng.adaptor_arguments (transport req))

/- ## Fetcher configuration (`BaseFetcher`, toolbelt/custom.py lines 107-178) -/

/-- The class-level parser configuration attributes of `BaseFetcher`. -/
structure FetcherConfig where
  huge_tree : PyVal
  auto_match : PyVal
  storage : PyVal
  keep_cdata : PyVal
  storage_args : PyVal
  keep_comments : PyVal
  automatch_domain : PyVal
deriving DecidableEq, Repr

/-- `BaseFetcher.parser_keywords` (custom.py 116). -/
def parser_keywords : List String :=
  ["huge_tree", "auto_match", "storage", "keep_cdata", "storage_args",
   "keep_comments", "automatch_domain"]

/-- The class defaults of `BaseFetcher` (custom.py 109-115); the
`SQLiteStorageSystem` class object is modelled as an opaque object tag. -/
def defaultConfig : FetcherConfig :=
  ⟨.vBool true, .vBool false, .vObj "SQLiteStorageSystem", .vBool false, .vNone,
   .vBool false, .vNone⟩

/-- `setattr(cls, key, value)` for the configuration attributes; only ever
invoked by `configure` under a `key in cls.parser_keywords` guard. -/
def setattrConfig (st : FetcherConfig) (key : String) (v : PyVal) : FetcherConfig :=
  if key = "huge_tree" then
    ⟨v, st.auto_match, st.storage, st.keep_cdata, st.storage_args, st.keep_comments,
     st.automatch_domain⟩
  else if key = "auto_match" then
    ⟨st.huge_tree, v, st.storage, st.keep_cdata, st.storage_args, st.keep_comments,
     st.automatch_domain⟩
  else if key = "storage" then
    ⟨st.huge_tree, st.auto_match, v, st.keep_cdata, st.storage_args, st.keep_comments,
     st.automatch_domain⟩
  else if key = "keep_cdata" then
    ⟨st.huge_tree, st.auto_match, st.storage, v, st.storage_args, st.keep_comments,
     st.automatch_domain⟩
  else if key = "storage_args" then
    ⟨st.huge_tree, st.auto_match, st.storage, st.keep_cdata, v, st.keep_comments,
     st.automatch_domain⟩
  else if key = "keep_comments" then
    ⟨st.huge_tree, st.auto_match, st.storage, st.keep_cdata, st.storage_args, v,
     st.automatch_domain⟩
  else if key = "automatch_domain" then
    ⟨st.huge_tree, st.auto_match, st.storage, st.keep_cdata, st.storage_args,
     st.keep_comments, v⟩
  else st

/-- The `for key, value in kwargs.items()` loop of `BaseFetcher.configure`
(custom.py 146-155): normalize each key with `strip().lower()`, then either
set a recognized attribute, raise `AttributeError` for a class attribute that
is not a parser keyword, or raise `ValueError` for anything else.
`hasattrF` models `hasattr(cls, key)`. -/
def configureLoop (hasattrF : String → Bool) :
    FetcherConfig → List (String × PyVal) → FetcherConfig × Option PyErr
  | st, [] => (st, none)
  | st, (k, v) :: rest =>
    let key := pyLower (pyStrip pyWhitespace k)
    if hasattrF key then
      if parser_keywords.contains key then
        configureLoop hasattrF (setattrConfig st key v) rest
      else (st, some .attributeError)
    else (st, some .valueError)

/-- Embedding of `BaseFetcher.configure` (custom.py 140-158): the keyword
loop followed by the `if not kwargs: raise AttributeError` guard.  The first
component is the class configuration after the call (mutations before a
raise persist), the second the exception raised, if any. -/
def configure (hasattrF : String → Bool) (st : FetcherConfig)
    (kwargs : List (String × PyVal)) : FetcherConfig × Option PyErr :=
  match configureLoop hasattrF st kwargs with
  | (st2, some e) => (st2, some e)
  | (st2, none) => if kwargs.isEmpty then (st2, some .attributeError) else (st2, none)

/-- A model of `hasattr(BaseFetcher, key)`, listing the class attributes the
theorems below evaluate it on (the configuration attributes and a few
methods); it is only consulted at those keys. -/
def hasattrBaseFetcher (k : String) : Bool :=
  parser_keywords.contains k ||
    ["parser_keywords", "display_config", "configure"].contains k

/-- Embedding of `BaseFetcher._generate_parser_arguments` (custom.py
160-178): the six unconditional parser arguments, plus `automatch_domain`
when it is truthy and a string (a truthy non-string is logged and ignored). -/
def generate_parser_arguments (cfg : FetcherConfig) : PyDict PyVal :=
  let parser_arguments : PyDict PyVal :=
    [("huge_tree", cfg.huge_tree), ("keep_comments", cfg.keep_comments),
     ("keep_cdata", cfg.keep_cdata), ("auto_match", cfg.auto_match),
     ("storage", cfg.storage), ("storage_args", cfg.storage_args)]
  if cfg.automatch_domain.truthy then
    if !cfg.automatch_domain.isStr then parser_arguments
    else parser_arguments.set "automatch_domain" cfg.automatch_domain
  else parser_arguments

/- ## Fetcher request methods (`Fetcher`/`AsyncFetcher`, fetchers.py) -/

/-- The `custom_config` argument of the `Fetcher`/`AsyncFetcher` request
methods: absent (`None`), a dict, or a non-mapping value such as a string. -/
inductive CustomConfigArg where
  | ccNone
  | ccDict (d : PyDict PyVal)
  | ccStr (s : String)
deriving DecidableEq, Repr

/-- Python truthiness of a `custom_config` argument. -/
def CustomConfigArg.truthy : CustomConfigArg → Bool
  | .ccNone => false
  | .ccDict d => !d.isEmpty
  | .ccStr s => !s.isEmpty

/-- Embedding of the shared prelude of every `Fetcher`/`AsyncFetcher`
request method (fetchers.py, e.g. lines 50-59): the `if not custom_config:
custom_config = {}` normalization, the `elif not isinstance(custom_config,
dict):` branch — whose `ValueError(...)` is constructed but has no `raise`
in the source, so evaluating it changes nothing and it is a no-op here —
and the `{**cls._generate_parser_arguments(), **custom_config}` merge, which
raises `TypeError` when a (truthy) non-mapping is unpacked. -/
def fetcher_request_args (cfg : FetcherConfig) (custom_config : CustomConfigArg) :
    Except PyErr (PyDict PyVal) :=
  let cc := if custom_config.truthy then custom_config else .ccDict []
  match cc with
  | .ccDict d => .ok ((generate_parser_arguments cfg).updateAll d)
  | .ccStr _ => .error .typeError
  | .ccNone => .error .typeError

/-- Whether control reaches the engine dispatch
`StaticEngine(...).get(**kwargs)` (or the async variant): everything before
the dispatch is the `custom_config` handling and the adaptor-argument merge
embedded in `fetcher_request_args`. -/
def reaches_engine_dispatch (cfg : FetcherConfig) (cc : CustomConfigArg) : Bool :=
  (fetcher_request_args cfg cc).isOk

/- # Theorems -/

namespace PyDict

variable {α : Type}

theorem lookup_set_ne (d : PyDict α) (k k₁ : String) (v : α) (h : k ≠ k₁) :
    (d.set k₁ v).lookup k = d.lookup k := by
  induction d with
  | nil =>
    simp [set, lookup, List.find?, decide_eq_false (fun hh : k₁ = k => h hh.symm)]
  | cons p tl ih =>
    by_cases hp : p.1 = k₁
    · have hpk : ¬(p.1 = k) := fun hk => h (hk ▸ hp)
      simp [set, lookup, List.find?, hp, decide_eq_false hpk,
        decide_eq_false (fun hh : k₁ = k => h hh.symm)]
    · by_cases hpk : p.1 = k
      · simp [set, lookup, List.find?, hp, hpk, h]
      · simp only [set, hp, if_false]
        simp [lookup, List.find?, decide_eq_false hpk] at ih ⊢
        exact ih

theorem lookup_updateAll_ne (e : PyDict α) (d : PyDict α) (k : String)
    (h : ∀ p ∈ e, p.1 ≠ k) :
    (d.updateAll e).lookup k = d.lookup k := by
  induction e generalizing d with
  | nil => rfl
  | cons p tl ih =>
    unfold updateAll
    simp only [List.foldl_cons]
    have hstep : (d.set p.1 p.2).lookup k = d.lookup k :=
      lookup_set_ne d k p.1 p.2 (fun hk => (h p (List.mem_cons_self p tl)) hk.symm)
    have := ih (d.set p.1 p.2) (fun q hq => h q (List.mem_cons_of_mem p hq))
    unfold updateAll at this
    rw [this, hstep]

end PyDict

/-- C2: with stealth enabled, the header merge maps every key whose
lowercase form occurs among the caller's (lowercased) keys to exactly what
the caller's mapping holds for it; in particular every caller-supplied key
keeps its original value, and no stealth-generated header — the referer
included — replaces a caller-supplied header, with case-insensitive key
comparison. -/
theorem headers_job_never_overrides_caller
    (gen : PyDict HVal) (referer : String) (hs : PyDict HVal) (k : String)
    (hk : (hs.map (fun p => pyLower p.1)).contains (pyLower k) = true) :
    ((headers_job gen referer true (some hs)).result).lookup k = hs.lookup k := by
  have hne : hs.isEmpty = false := by
    cases hs with
    | nil => simp at hk
    | cons a l => rfl
  have hExtra : ∀ p ∈ gen.filter
      (fun p => !((hs.map (fun q => pyLower q.1)).contains (pyLower p.1))), p.1 ≠ k := by
    intro p hp hpk
    have hmem := List.of_mem_filter hp
    rw [hpk, hk] at hmem
    simp at hmem
  have hUpd := PyDict.lookup_updateAll_ne
    (gen.filter (fun p => !((hs.map (fun q => pyLower q.1)).contains (pyLower p.1)))) hs k hExtra
  by_cases hr : (hs.map (fun p => pyLower p.1)).contains "referer" = true
  · simp only [headers_job, hne, Bool.false_eq_true, if_false, if_true, hr]
    exact hUpd
  · have hkr : k ≠ "referer" := by
      intro hkk
      subst hkk
      rw [show pyLower "referer" = "referer" from rfl] at hk
      exact hr hk
    simp only [headers_job, hne, Bool.false_eq_true, if_false, if_true, hr]
    rw [PyDict.lookup_set_ne _ _ _ _ hkr]
    exact hUpd

/-- Witness for C2 at a concrete input: a caller-supplied `User-Agent`
survives a stealth merge whose generated headers carry their own
`User-Agent`. -/
theorem headers_job_never_overrides_caller_witness :
    ((([("User-Agent", some "X")] : PyDict HVal).map (fun p => pyLower p.1)).contains
        (pyLower "User-Agent") = true)
    ∧ ((headers_job [("User-Agent", some "Mozilla"), ("Accept", some "text/html")]
        "https://www.google.com/search?q=example.com" true
        (some [("User-Agent", some "X")])).result).lookup "User-Agent"
      = some (some "X") := by
  have h1 : (([("User-Agent", some "X")] : PyDict HVal).map (fun p => pyLower p.1)).contains
      (pyLower "User-Agent") = true := by decide
  refine ⟨h1, ?_⟩
  rw [headers_job_never_overrides_caller
    [("User-Agent", some "Mozilla"), ("Accept", some "text/html")]
    "https://www.google.com/search?q=example.com" [("User-Agent", some "X")] "User-Agent" h1]
  rfl

/-- C3 counterexample: the claim that the caller's non-empty mapping is
unchanged after the merge is false — `_headers_job` mutates the caller's
dict in place (`headers = headers or {}` aliases it and `headers.update`
writes through the alias), so after the call the caller's mapping has
acquired the stealth headers. -/
theorem headers_job_mutates_caller_cex :
    (headers_job [("User-Agent", some "Mozilla")] "https://www.google.com/search?q=x" true
        (some [("X-Token", some "1")])).callerAfter
      ≠ some [("X-Token", some "1")] := by decide

/-- C3 amended: for every non-empty caller headers mapping, the merge
mutates the caller's mapping in place rather than copying: after the call
the caller's mapping is exactly the merged mapping the function returns
(caller entries keep their values per C2, but generated entries are added to
the caller's own dict). -/
theorem headers_job_mutates_in_place
    (gen : PyDict HVal) (referer : String) (stealth : Bool) (hs : PyDict HVal)
    (h : hs ≠ []) :
    (headers_job gen referer stealth (some hs)).callerAfter
      = some (headers_job gen referer stealth (some hs)).result := by
  have hne : hs.isEmpty = false := by
    cases hs with
    | nil => exact absurd rfl h
    | cons a l => rfl
  simp [headers_job, hne, h]

/-- Witness for the amended C3 at a concrete input. -/
theorem headers_job_mutates_in_place_witness :
    ([("X-Token", some "1")] : PyDict HVal) ≠ []
    ∧ (headers_job [("User-Agent", some "Mozilla")] "r" true
          (some [("X-Token", some "1")])).callerAfter
        = some (headers_job [("User-Agent", some "Mozilla")] "r" true
          (some [("X-Token", some "1")])).result := by
  refine ⟨by decide, ?_⟩
  exact headers_job_mutates_in_place [("User-Agent", some "Mozilla")] "r" true
    [("X-Token", some "1")] (by decide)

/-- C1: the spec claims a non-mapping `custom_config` raises a configuration
error before any request is dispatched.  The source constructs
`ValueError(...)` without `raise`, so the validation branch has no effect:
with `custom_config=""` (a string, hence not a mapping) no error occurs at
all and control reaches the engine dispatch, while with a truthy string the
call only fails incidentally with a `TypeError` from the
`{**parser_args, **custom_config}` dict-unpacking, not with the intended
configuration `ValueError`. -/
theorem fetcher_custom_config_never_raises_valueError :
    fetcher_request_args defaultConfig (.ccStr "")
        = .ok (generate_parser_arguments defaultConfig)
    ∧ reaches_engine_dispatch defaultConfig (.ccStr "") = true
    ∧ fetcher_request_args defaultConfig (.ccStr "not a dict") = .error .typeError := by
  refine ⟨rfl, rfl, rfl⟩

/-- C7: for every transport response, the normalized `Response` has one
history entry per redirect hop, in the same (oldest-first) order, and each
entry is itself the full normalization of that hop with the same adaptor
arguments. -/
theorem prepare_response_normalizes_history
    (emailParse : String → Except PyErr (String × PyDict String))
    (encodeErr : String → String → Option PyErr)
    (args : PyDict PyVal) (r : HttpxResponse) :
    (prepare_response emailParse encodeErr args r).history
        = r.history.map (prepare_response emailParse encodeErr args)
    ∧ (prepare_response emailParse encodeErr args r).history.length
        = r.history.length := by
  have hmap : (prepare_response emailParse encodeErr args r).history
      = r.history.map (prepare_response emailParse encodeErr args) := by
    cases r with
    | mk url text content status reason enc cookies headers reqHeaders method history =>
      rw [prepare_response.eq_def]
      dsimp only
      rw [List.attach_map_val history (prepare_response emailParse encodeErr args)]
      simp only [mkResponse, SResponse.history, HttpxResponse.history]
      split
      · next hempty => rw [List.isEmpty_iff] at hempty; exact hempty.symm
      · rfl
  exact ⟨hmap, by rw [hmap, List.length_map]⟩

/-- C9: the synchronous request path and the asynchronous request path
compute the same final headers, dispatch the same request parameters, and
build identical `Response` objects from the same transport result; they
differ only in the execution model. -/
theorem sync_async_request_paths_agree
    (emailParse : String → Except PyErr (String × PyDict String))
    (encodeErr : String → String → Option PyErr)
    (gen : PyDict HVal) (genReferer : String → String)
    (eng : StaticEngineState) (transport : RequestSent → HttpxResponse)
    (method : String) (headersArg : Option (PyDict HVal)) :
    make_request emailParse encodeErr gen genReferer eng transport method headersArg
      = async_make_request emailParse encodeErr gen genReferer eng transport method
          headersArg := rfl

/-- C10: `Response.__init__` removes a truthy `automatch_domain` entry from
the adaptor arguments before forwarding them to the parser and passes its
value instead of the fetched URL to the parsed-document base; otherwise the
fetched URL itself is used. -/
theorem response_automatch_domain_substitution
    (emailParse : String → Except PyErr (String × PyDict String))
    (encodeErr : String → String → Option PyErr)
    (url text body : String) (status : Int) (reason : String)
    (cookies headers request_headers : PyDict String) (encoding method : String)
    (history : Option (List SResponse)) (args : PyDict PyVal) :
    (mkResponse emailParse encodeErr url text body status reason cookies headers
        request_headers encoding method history args).parserArgs
      = args.eraseKey "automatch_domain"
    ∧ (mkResponse emailParse encodeErr url text body status reason cookies headers
        request_headers encoding method history args).adaptorUrl
      = (match args.lookup "automatch_domain" with
         | some v => if v.truthy then v else .vStr url
         | none => .vStr url) := by
  refine ⟨rfl, ?_⟩
  cases h : args.lookup "automatch_domain" with
  | none => simp [mkResponse, SResponse.adaptorUrl, h, PyVal.truthy]
  | some v => simp [mkResponse, SResponse.adaptorUrl, h]

/-- C8 counterexample: the keyword `"HUGE_TREE"` is not one of the
recognized parser keywords as the claim lists them, yet `configure`
normalizes keys with `strip().lower()` before checking, so the call raises
nothing and mutates the class default `huge_tree`. -/
theorem configure_unknown_keyword_cex :
    parser_keywords.contains "HUGE_TREE" = false
    ∧ configure hasattrBaseFetcher defaultConfig [("HUGE_TREE", .vBool false)]
        = (⟨.vBool false, .vBool false, .vObj "SQLiteStorageSystem", .vBool false, .vNone,
            .vBool false, .vNone⟩, none)
    ∧ (⟨.vBool false, .vBool false, .vObj "SQLiteStorageSystem", .vBool false, .vNone,
        .vBool false, .vNone⟩ : FetcherConfig) ≠ defaultConfig := by
  exact ⟨by decide, by decide, by decide⟩

/-- C8 amended: for every keyword whose `strip().lower()` normalization is
not a recognized parser keyword, a `configure` call with that keyword raises
an `AttributeError` (when it names another class attribute) or a
`ValueError` (otherwise), and afterwards every class-level configuration
default has the value it had before the call. -/
theorem configure_unknown_keyword_rejected
    (hasattrF : String → Bool) (st : FetcherConfig) (k : String) (v : PyVal)
    (h : parser_keywords.contains (pyLower (pyStrip pyWhitespace k)) = false) :
    ∃ e, configure hasattrF st [(k, v)] = (st, some e)
      ∧ (e = PyErr.attributeError ∨ e = PyErr.valueError) := by
  have h2 : pyLower (pyStrip pyWhitespace k) ∉ parser_keywords := by simpa using h
  by_cases hA : hasattrF (pyLower (pyStrip pyWhitespace k)) = true
  · exact ⟨.attributeError, by simp [configure, configureLoop, hA, h2], Or.inl rfl⟩
  · exact ⟨.valueError, by simp [configure, configureLoop, hA, h2], Or.inr rfl⟩

/-- Witness for the amended C8 at a concrete unknown keyword. -/
theorem configure_unknown_keyword_rejected_witness :
    parser_keywords.contains (pyLower (pyStrip pyWhitespace "bogus_key")) = false
    ∧ ∃ e, configure hasattrBaseFetcher defaultConfig [("bogus_key", PyVal.vNone)]
        = (defaultConfig, some e)
      ∧ (e = PyErr.attributeError ∨ e = PyErr.valueError) := by
  refine ⟨by decide, ?_⟩
  exact configure_unknown_keyword_rejected hasattrBaseFetcher defaultConfig "bogus_key"
    PyVal.vNone (by decide)

/-- C4: for a content-type whose parsed parameters carry an explicit
`charset=X`, `get_value` returns X with surrounding single or double quotes
stripped whenever the stripped name is a known encoding that can encode the
probe text (the `text.encode` model raises nothing), and returns UTF-8
otherwise — either because the stripped charset is the falsy empty string,
which skips validation, or because validation raises one of the caught
exception kinds (`text.encode` raises only those). -/
theorem get_value_explicit_charset
    (emailParse : String → Except PyErr (String × PyDict String))
    (encodeErr : String → String → Option PyErr)
    (ct text mt X : String) (params : PyDict String)
    (hct : ct.isEmpty = false)
    (hparse : parse_content_type emailParse ct = .ok (mt, params))
    (hch : params.lookup "charset" = some X)
    (henc : ∀ e, encodeErr (pyStrip quoteChars X) text = some e →
      caughtEncodingErrs.contains e = true) :
    get_value emailParse encodeErr (some ct) text
      = .ok (if (pyStrip quoteChars X).isEmpty = false
              ∧ encodeErr (pyStrip quoteChars X) text = none
             then pyStrip quoteChars X else DEFAULT_ENCODING) := by
  simp only [get_value, hct, Bool.false_eq_true, if_false, hparse, chosen_encoding, hch]
  by_cases hemp : (pyStrip quoteChars X).isEmpty = true
  · simp [hemp]
  · have hemp2 : (pyStrip quoteChars X).isEmpty = false := by simpa using hemp
    cases he : encodeErr (pyStrip quoteChars X) text with
    | none => simp [hemp2, he]
    | some e =>
      have hc : e ∈ caughtEncodingErrs := by simpa using henc e he
      simp [hemp2, he, hc]

/-- Witness for C4 at a concrete input: an explicit quoted charset is
returned with its quotes stripped when it can encode the probe. -/
theorem get_value_explicit_charset_witness :
    ("text/html; charset=\x22utf-8\x22").isEmpty = false
    ∧ parse_content_type
        (fun _ => .ok ("text/html", [("charset", "\x22utf-8\x22")]))
        "text/html; charset=\x22utf-8\x22" = .ok ("text/html", [("charset", "\x22utf-8\x22")])
    ∧ (([("charset", "\x22utf-8\x22")] : PyDict String).lookup "charset"
        = some "\x22utf-8\x22")
    ∧ get_value (fun _ => .ok ("text/html", [("charset", "\x22utf-8\x22")]))
        (fun _ _ => none) (some "text/html; charset=\x22utf-8\x22") "test" = .ok "utf-8" := by
  refine ⟨by decide, rfl, by decide, ?_⟩
  have h := get_value_explicit_charset
    (fun _ => .ok ("text/html", [("charset", "\x22utf-8\x22")])) (fun _ _ => none)
    "text/html; charset=\x22utf-8\x22" "test" "text/html" "\x22utf-8\x22"
    [("charset", "\x22utf-8\x22")] (by decide) rfl (by decide) (fun e he => by cases he)
  rw [h]
  have hx : pyStrip quoteChars "\x22utf-8\x22" = "utf-8" := by decide
  rw [hx]
  have he2 : ("utf-8" : String).isEmpty = false := rfl
  simp [he2]

/-- C5: the default rules of `get_value` when no charset parameter is
present, for a probe the default charsets can encode (true of the default
probe `'test'`): a missing content type yields UTF-8; the four plain-text
media types yield ISO-8859-1; `application/json` and any other media type
yield UTF-8. -/
theorem get_value_default_rules
    (emailParse : String → Except PyErr (String × PyDict String))
    (encodeErr : String → String → Option PyErr)
    (ct text mt : String) (params : PyDict String)
    (hct : ct.isEmpty = false)
    (hparse : parse_content_type emailParse ct = .ok (mt, params))
    (hch : params.lookup "charset" = none)
    (hiso : encodeErr "ISO-8859-1" text = none)
    (hutf : encodeErr "utf-8" text = none) :
    get_value emailParse encodeErr none text = .ok "utf-8"
    ∧ get_value emailParse encodeErr (some ct) text
      = .ok (if ISO_8859_1_CONTENT_TYPES.contains mt then "ISO-8859-1" else "utf-8") := by
  refine ⟨rfl, ?_⟩
  simp only [get_value, hct, Bool.false_eq_true, if_false, hparse, chosen_encoding, hch]
  by_cases hmt : ISO_8859_1_CONTENT_TYPES.contains mt = true
  · have hmt2 : mt ∈ ISO_8859_1_CONTENT_TYPES := by simpa using hmt
    have hiE : ("ISO-8859-1" : String).isEmpty = false := rfl
    simp [hmt, hmt2, hiso, hiE]
  · have hmt2 : mt ∉ ISO_8859_1_CONTENT_TYPES := by simpa using hmt
    by_cases hjson : mt = "application/json"
    · subst hjson
      have hmem : ("application/json" : String) ∉ ISO_8859_1_CONTENT_TYPES := by decide
      have hmc : ISO_8859_1_CONTENT_TYPES.contains "application/json" = false := by decide
      have huE : ("utf-8" : String).isEmpty = false := rfl
      simp [hmem, hmc, hutf, DEFAULT_ENCODING, huE]
    · simp [hmt, hmt2, hjson, DEFAULT_ENCODING]

/-- Witness for C5 at concrete inputs: `text/html` resolves to ISO-8859-1
and `application/json` to UTF-8 under an encode model that accepts both. -/
theorem get_value_default_rules_witness :
    get_value (fun s => if s = "text/html" then .ok ("text/html", [])
        else .ok ("application/json", [])) (fun _ _ => none) none "test" = .ok "utf-8"
    ∧ get_value (fun s => if s = "text/html" then .ok ("text/html", [])
        else .ok ("application/json", [])) (fun _ _ => none) (some "text/html") "test"
      = .ok "ISO-8859-1"
    ∧ get_value (fun s => if s = "text/html" then .ok ("text/html", [])
        else .ok ("application/json", [])) (fun _ _ => none) (some "application/json") "test"
      = .ok "utf-8" := by
  have h1 := get_value_default_rules
    (fun s => if s = "text/html" then .ok ("text/html", []) else .ok ("application/json", []))
    (fun _ _ => none) "text/html" "test" "text/html" [] (by decide)
    rfl (by decide) rfl rfl
  have h2 := get_value_default_rules
    (fun s => if s = "text/html" then .ok ("text/html", []) else .ok ("application/json", []))
    (fun _ _ => none) "application/json" "test" "application/json" [] (by decide)
    rfl (by decide) rfl rfl
  refine ⟨h1.1, ?_, ?_⟩
  · rw [h1.2]
    have hm : ("text/html" : String) ∈ ISO_8859_1_CONTENT_TYPES := by decide
    have hc : ISO_8859_1_CONTENT_TYPES.contains "text/html" = true := by decide
    simp [hc, hm]
  · rw [h2.2]
    have hm : ("application/json" : String) ∉ ISO_8859_1_CONTENT_TYPES := by decide
    have hc : ISO_8859_1_CONTENT_TYPES.contains "application/json" = false := by decide
    simp [hc, hm]

/-- C6: for every content-type and every probe text, `get_value` is total
and never raises, given that the parsing collaborator and `text.encode`
raise only the exception kinds that the `except` clause catches (which is
what they do for string inputs): the result is always some `ok` encoding,
and whenever parsing raises, or the chosen charset fails validation,
`get_value` returns UTF-8. -/
theorem get_value_never_raises
    (emailParse : String → Except PyErr (String × PyDict String))
    (encodeErr : String → String → Option PyErr)
    (ct : Option String) (text : String)
    (hp : ∀ s e, emailParse s = .error e → caughtEncodingErrs.contains e = true)
    (he : ∀ enc e, encodeErr enc text = some e → caughtEncodingErrs.contains e = true) :
    (∃ v, get_value emailParse encodeErr ct text = .ok v)
    ∧ (∀ s e, emailParse s = .error e →
        get_value emailParse encodeErr (some s) text = .ok DEFAULT_ENCODING)
    ∧ (∀ s mt params enc e, parse_content_type emailParse s = .ok (mt, params) →
        chosen_encoding mt params = some enc → encodeErr enc text = some e →
        get_value emailParse encodeErr (some s) text = .ok DEFAULT_ENCODING) := by
  have total : ∀ ct2 : Option String, ∃ v, get_value emailParse encodeErr ct2 text = .ok v := by
    intro ct2
    cases ct2 with
    | none => exact ⟨DEFAULT_ENCODING, rfl⟩
    | some s =>
      by_cases hse : s.isEmpty = true
      · exact ⟨DEFAULT_ENCODING, by simp [get_value, hse]⟩
      · have hse2 : s.isEmpty = false := by simpa using hse
        cases hpr : parse_content_type emailParse s with
        | error e =>
          have hpe : emailParse s = .error e := by
            unfold parse_content_type at hpr
            cases hes : emailParse s with
            | error e0 => rw [hes] at hpr; cases hpr; rfl
            | ok r => rw [hes] at hpr; cases hpr
          have hc : e ∈ caughtEncodingErrs := by simpa using hp s e hpe
          exact ⟨DEFAULT_ENCODING, by simp [get_value, hse2, hpr, hc]⟩
        | ok r =>
          cases hch : chosen_encoding r.1 r.2 with
          | none => exact ⟨DEFAULT_ENCODING, by simp [get_value, hse2, hpr, hch]⟩
          | some enc =>
            by_cases hemp : enc.isEmpty = true
            · exact ⟨DEFAULT_ENCODING, by simp [get_value, hse2, hpr, hch, hemp]⟩
            · have hemp2 : enc.isEmpty = false := by simpa using hemp
              cases hee : encodeErr enc text with
              | none => exact ⟨enc, by simp [get_value, hse2, hpr, hch, hemp2, hee]⟩
              | some e =>
                have hc : e ∈ caughtEncodingErrs := by simpa using he enc e hee
                exact ⟨DEFAULT_ENCODING, by simp [get_value, hse2, hpr, hch, hemp2, hee, hc]⟩
  refine ⟨total ct, ?_, ?_⟩
  · intro s e hpe
    by_cases hse : s.isEmpty = true
    · simp [get_value, hse]
    · have hse2 : s.isEmpty = false := by simpa using hse
      have hpr : parse_content_type emailParse s = .error e := by
        unfold parse_content_type; rw [hpe]; rfl
      have hc : e ∈ caughtEncodingErrs := by simpa using hp s e hpe
      simp [get_value, hse2, hpr, hc]
  · intro s mt params enc e hpr hch hee
    by_cases hse : s.isEmpty = true
    · simp [get_value, hse]
    · have hse2 : s.isEmpty = false := by simpa using hse
      by_cases hemp : enc.isEmpty = true
      · simp [get_value, hse2, hpr, hch, hemp]
      · have hemp2 : enc.isEmpty = false := by simpa using hemp
        have hc : e ∈ caughtEncodingErrs := by simpa using he enc e hee
        simp [get_value, hse2, hpr, hch, hemp2, hee, hc]

/-- Witness for C6 at a concrete input: an encode model that rejects every
charset with a caught `LookupError` still yields an `ok` UTF-8 result. -/
theorem get_value_never_raises_witness :
    (∃ v, get_value (fun _ => .ok ("text/html", [("charset", "bogus")]))
        (fun _ _ => some PyErr.lookupError) (some "text/html; charset=bogus") "test"
        = .ok v)
    ∧ get_value (fun _ => .ok ("text/html", [("charset", "bogus")]))
        (fun _ _ => some PyErr.lookupError) (some "text/html; charset=bogus") "test"
      = .ok DEFAULT_ENCODING := by
  have h := get_value_never_raises (fun _ => .ok ("text/html", [("charset", "bogus")]))
    (fun _ _ => some PyErr.lookupError) (some "text/html; charset=bogus") "test"
    (fun s e hs => by cases hs) (fun enc e hs => by cases hs; decide)
  refine ⟨h.1, ?_⟩
  exact h.2.2 "text/html; charset=bogus" "text/html" [("charset", "bogus")] "bogus"
    PyErr.lookupError rfl (by decide) rfl

end Scrapling
